import Mathlib

/-!
Verification of the ByteBuddy browser-side analyzer's parsing and scoring
logic.  The repository contains two near-identical copies of the class
`ByteBuddyAnalyzer`: `src/app/static/js/analysis.js` (the "hacker"-themed
copy, embedded below in namespace `AnalysisJs`) and `src/unnamed/part_000`
(embedded in namespace `Part000`).  JavaScript strings are modelled as
`List Char`; nullable values as `Option`; JS falsiness of a string is
emptiness of the list.  Byte-level note: in `analysis.js` the superscript
two of the token `O(n²)` is stored as the two characters U+00AC U+2264
(the file is mojibake-encoded), while `part_000` stores a genuine U+00B2;
the embeddings reproduce each file's actual characters.  Lookups on the
score tables are plain-object property accesses and therefore walk the
prototype chain: for the member names of `Object.prototype` they yield
the truthy inherited member, which the `||` number defaults do not
replace; the embedding models this with `ObjLookup`/`jsOr`/`roundMean`.
-/

namespace ByteBuddy

/-- The character class of JavaScript `\s` (as used by `\s` in regexes,
`String.prototype.trim` and friends): ASCII whitespace plus the Unicode
space separators, line separators and BOM. -/
def jsWhitespace (c : Char) : Bool :=
  c = ' ' || c = '\t' || c = '\n' || c = '\r' || c.val = 0x0b || c.val = 0x0c ||
  c.val = 0xa0 || c.val = 0x1680 || (0x2000 ≤ c.val && c.val ≤ 0x200a) ||
  c.val = 0x2028 || c.val = 0x2029 || c.val = 0x202f || c.val = 0x205f ||
  c.val = 0x3000 || c.val = 0xfeff

/-- Embeds `String.prototype.toLowerCase` (ASCII case mapping; every character
occurring in this program outside the ASCII letters is case-invariant). -/
def toLowerStr (l : List Char) : List Char := l.map Char.toLower

/-- Embeds `a.startsWith b` on character lists (case-sensitive). -/
def startsWithStr : List Char → List Char → Bool
  | _, [] => true
  | [], _ :: _ => false
  | c :: cs, p :: ps => c = p && startsWithStr cs ps

/-- JavaScript `String.prototype.includes`: `containsSub l p` is true iff
`p` occurs as a contiguous substring of `l` (the empty pattern always
occurs). -/
def containsSub (l p : List Char) : Bool :=
  if startsWithStr l p then true else
    match l with
    | [] => false
    | _ :: rest => containsSub rest p

/-- Embeds `Math.round (n / 2)` for a natural numerator `n`: JavaScript's
`Math.round` rounds half-integers up, so this is `n / 2` for even `n` and
`(n + 1) / 2` for odd `n`, i.e. `(n + 1) / 2` in natural division. -/
def mathRoundHalf (n : Nat) : Nat := (n + 1) / 2

/-- The result of `obj[k]` on one of this program's numeric-valued object
literals: a number for an own key, the truthy function/object inherited
from `Object.prototype` for one of its member names (a plain object
lookup walks the prototype chain), and undefined for every other key. -/
inductive ObjLookup where
  | num (n : Nat)
  | protoMember
  | missing
deriving DecidableEq, Repr

/-- A JS value produced by `table[k] || d` on these numeric tables:
either a number, or the truthy inherited `Object.prototype` member that
leaks through the `||` default. -/
inductive ScoreVal where
  | num (n : Nat)
  | protoMember
deriving DecidableEq, Repr

/-- The result of `calculateComplexityScore`: a number, or NaN when an
inherited `Object.prototype` member reaches the arithmetic. -/
inductive ComplexityScoreVal where
  | num (n : Nat)
  | nan
deriving DecidableEq, Repr

/-- The own property names of `Object.prototype`: for these keys an
object-literal lookup `obj[k]` finds the inherited member (the
`constructor` object, the methods, and the `__proto__` accessor) instead
of undefined. -/
def objectProtoKeys : List (List Char) :=
  ["constructor".data, "hasOwnProperty".data, "isPrototypeOf".data,
   "propertyIsEnumerable".data, "toLocaleString".data, "toString".data,
   "valueOf".data, "__defineGetter__".data, "__defineSetter__".data,
   "__lookupGetter__".data, "__lookupSetter__".data, "__proto__".data]

/-- Embeds `x || d` for an object lookup `x` and a number default `d`: a
nonzero number and an inherited member are truthy; zero and undefined
are falsy and fall to the default. -/
def jsOr (x : ObjLookup) (d : Nat) : ScoreVal :=
  match x with
  | .num n => if n = 0 then .num d else .num n
  | .protoMember => .protoMember
  | .missing => .num d

/-- Embeds `Math.round((timeScore + spaceScore) / 2)`: with two numbers
this is the round-half-up mean; when an inherited `Object.prototype`
member (a function or object) is an operand, `+` concatenates the
operands as strings, dividing that string by 2 yields NaN, and
`Math.round(NaN)` is NaN. -/
def roundMean : ScoreVal → ScoreVal → ComplexityScoreVal
  | .num a, .num b => .num (mathRoundHalf (a + b))
  | _, _ => .nan

/-- A JavaScript value in the positions where the repository may pass a
non-string to `getComplexityColor`; `String()` coercion is `jsStringOf`. -/
inductive JSVal where
  | null
  | undef
  | str (s : List Char)
deriving DecidableEq, Repr

/-- The `String()` coercion used by `getComplexityColor`. -/
def jsStringOf : JSVal → List Char
  | .null => "null".data
  | .undef => "undefined".data
  | .str s => s

end ByteBuddy

namespace AnalysisJs

open ByteBuddy

/-- Embeds `getComplexityColor` from `src/app/static/js/analysis.js` (lines
672–681): lowercase the `String()`-coerced argument, then test the
substring patterns `'1'`, `'log n'`, `'n log n'`, `'n^2'`/mojibake-squared,
`'2^n'`, `'n'` in that order; default `'#FF4757'`.  The squared-glyph
pattern in this file is the two characters U+00AC U+2264. -/
def getComplexityColor (complexity : JSVal) : List Char :=
  let c := toLowerStr (jsStringOf complexity)
  if containsSub c "1".data then "#2ED573".data
  else if containsSub c "log n".data then "#40E0D0".data
  else if containsSub c "n log n".data then "#FFA726".data
  else if containsSub c "n^2".data || containsSub c "n¬≤".data then "#FF4757".data
  else if containsSub c "2^n".data then "#FF1744".data
  else if containsSub c "n".data then "#00BFFF".data
  else "#FF4757".data

end AnalysisJs

namespace Part000

open ByteBuddy

/-- Embeds `getComplexityColor` from `src/unnamed/part_000` (lines 268–277): the
same chain with this file's colors and a genuine `'n²'` (U+00B2) in the
squared-glyph pattern. -/
def getComplexityColor (complexity : JSVal) : List Char :=
  let c := toLowerStr (jsStringOf complexity)
  if containsSub c "1".data then "#00C851".data
  else if containsSub c "log n".data then "#33b5e5".data
  else if containsSub c "n log n".data then "#FF8800".data
  else if containsSub c "n^2".data || containsSub c "n²".data then "#FF4444".data
  else if containsSub c "2^n".data then "#FF1744".data
  else if containsSub c "n".data then "#FFA500".data
  else "#FF4444".data

end Part000

namespace AnalysisJs

open ByteBuddy

/-- The lookup `performanceScores[k]` on the object literal of
`calculatePerformanceScore` in `analysis.js` (lines 688–696): an own key
yields its number, a key found on `Object.prototype` yields the truthy
inherited member, anything else is undefined.  The squared key is this
file's actual characters U+00AC U+2264. -/
def performanceScores (k : List Char) : ObjLookup :=
  if k = "O(1)".data then .num 95
  else if k = "O(log n)".data then .num 85
  else if k = "O(n)".data then .num 70
  else if k = "O(n log n)".data then .num 55
  else if k = "O(n¬≤)".data then .num 25
  else if k = "O(n^2)".data then .num 25
  else if k = "O(2^n)".data then .num 5
  else if k ∈ objectProtoKeys then .protoMember
  else .missing

/-- Embeds `calculatePerformanceScore` from `analysis.js` (lines
683–699).  The argument models `complexityAnalysis` (`none` =
null/undefined object); for a present object the list is its `.time`
field, `[]` standing for a falsy (missing or empty) field, defaulted by
`|| 'O(n)'`.  The result of `performanceScores[k] || 50` is a number, or
the inherited `Object.prototype` member when `k` is one of its names. -/
def calculatePerformanceScore : Option (List Char) → ScoreVal
  | none => .num 50
  | some time =>
    let timeComplexity := if time = [] then "O(n)".data else time
    jsOr (performanceScores timeComplexity) 50

/-- The lookup `complexityScores[k]` on the object literal of
`calculateComplexityScore` in `analysis.js` (lines 707–715), with this
file's squared key; prototype-chain behavior as for
`performanceScores`. -/
def complexityScores (k : List Char) : ObjLookup :=
  if k = "O(1)".data then .num 10
  else if k = "O(log n)".data then .num 8
  else if k = "O(n)".data then .num 6
  else if k = "O(n log n)".data then .num 4
  else if k = "O(n¬≤)".data then .num 2
  else if k = "O(n^2)".data then .num 2
  else if k = "O(2^n)".data then .num 1
  else if k ∈ objectProtoKeys then .protoMember
  else .missing

/-- Embeds `calculateComplexityScore` from `analysis.js` (lines 701–721):
the pair models `{time, space}`; time defaults via `|| 'O(n)'`, space via
`|| 'O(1)'`; the two severity lookups default to 5 and 8 (except on
`Object.prototype` member names, where the inherited member leaks
through); the result is `Math.round((timeScore + spaceScore) / 2)`,
which is NaN when a member leaked. -/
def calculateComplexityScore : Option (List Char × List Char) → ComplexityScoreVal
  | none => .num 5
  | some (time, space) =>
    let timeComplexity := if time = [] then "O(n)".data else time
    let spaceComplexity := if space = [] then "O(1)".data else space
    let timeScore := jsOr (complexityScores timeComplexity) 5
    let spaceScore := jsOr (complexityScores spaceComplexity) 8
    roundMean timeScore spaceScore

end AnalysisJs

namespace Part000

open ByteBuddy

/-- The lookup `performanceScores[k]` on the object literal of
`calculatePerformanceScore` in `part_000` (lines 284–292); this copy's
squared key is a genuine `O(n²)` (U+00B2); prototype-chain behavior as
in the other copy. -/
def performanceScores (k : List Char) : ObjLookup :=
  if k = "O(1)".data then .num 95
  else if k = "O(log n)".data then .num 85
  else if k = "O(n)".data then .num 70
  else if k = "O(n log n)".data then .num 55
  else if k = "O(n²)".data then .num 25
  else if k = "O(n^2)".data then .num 25
  else if k = "O(2^n)".data then .num 5
  else if k ∈ objectProtoKeys then .protoMember
  else .missing

/-- Embeds `calculatePerformanceScore` from `part_000` (lines 279–295);
same structure as the `analysis.js` copy. -/
def calculatePerformanceScore : Option (List Char) → ScoreVal
  | none => .num 50
  | some time =>
    let timeComplexity := if time = [] then "O(n)".data else time
    jsOr (performanceScores timeComplexity) 50

/-- The lookup `complexityScores[k]` on the object literal of
`calculateComplexityScore` in `part_000` (lines 303–311). -/
def complexityScores (k : List Char) : ObjLookup :=
  if k = "O(1)".data then .num 10
  else if k = "O(log n)".data then .num 8
  else if k = "O(n)".data then .num 6
  else if k = "O(n log n)".data then .num 4
  else if k = "O(n²)".data then .num 2
  else if k = "O(n^2)".data then .num 2
  else if k = "O(2^n)".data then .num 1
  else if k ∈ objectProtoKeys then .protoMember
  else .missing

/-- Embeds `calculateComplexityScore` from `part_000` (lines 297–317);
same structure as the `analysis.js` copy. -/
def calculateComplexityScore : Option (List Char × List Char) → ComplexityScoreVal
  | none => .num 5
  | some (time, space) =>
    let timeComplexity := if time = [] then "O(n)".data else time
    let spaceComplexity := if space = [] then "O(1)".data else space
    let timeScore := jsOr (complexityScores timeComplexity) 5
    let spaceScore := jsOr (complexityScores spaceComplexity) 8
    roundMean timeScore spaceScore

end Part000

/-- Claim-side severity table for the time token, following the words of
the spec's §4.3 contract for `overallScore` (C3): `O(1)→10, O(log n)→8,
O(n)→6, O(n log n)→4, O(n²)/O(n^2)→2, O(2^n)→1`, unrecognized time → 5.
This is the specification-side definition, to be compared with the
source-side `calculateComplexityScore`. -/
def severityTimeSpec (t : List Char) : Nat :=
  if t = "O(1)".data then 10
  else if t = "O(log n)".data then 8
  else if t = "O(n)".data then 6
  else if t = "O(n log n)".data then 4
  else if t = "O(n²)".data then 2
  else if t = "O(n^2)".data then 2
  else if t = "O(2^n)".data then 1
  else 5

/-- Claim-side severity table for the space token (unrecognized → 8). -/
def severitySpaceSpec (s : List Char) : Nat :=
  if s = "O(1)".data then 10
  else if s = "O(log n)".data then 8
  else if s = "O(n)".data then 6
  else if s = "O(n log n)".data then 4
  else if s = "O(n²)".data then 2
  else if s = "O(n^2)".data then 2
  else if s = "O(2^n)".data then 1
  else 8

/-- Claim-side `overallScore` (C3, spec §4.3): each token independently
mapped through the severity table, then the arithmetic mean of the two
scores rounded to the nearest integer using round-half-up. -/
def overallScoreSpec (t s : List Char) : Nat :=
  let twice := severityTimeSpec t + severitySpaceSpec s
  if twice % 2 = 0 then twice / 2 else twice / 2 + 1

namespace ByteBuddy

/-- Embeds `String.prototype.trim`: drop JS whitespace from both ends. -/
def jsTrim (l : List Char) : List Char :=
  ((l.dropWhile jsWhitespace).reverse.dropWhile jsWhitespace).reverse

/-- Embeds `split('\n')`: split at every single newline, keeping empty segments.
Never returns the empty list. -/
def splitSingleNl : List Char → List (List Char)
  | [] => [[]]
  | c :: rest =>
    if c = '\n' then [] :: splitSingleNl rest
    else
      match splitSingleNl rest with
      | [] => [[c]]
      | s :: ss => (c :: s) :: ss

/-- Drop empty segments that are neither the first nor the last element
of the tail being processed (the last is kept). -/
def midFilter : List (List Char) → List (List Char)
  | [] => []
  | [x] => [x]
  | x :: y :: rest =>
    if x = [] then midFilter (y :: rest) else x :: midFilter (y :: rest)

/-- JavaScript `split(/\n+/)`: runs of newlines act as one separator.
Equivalently: split at single newlines, then drop the interior empty
segments (which arise exactly from consecutive newlines), keeping a
leading and a trailing empty segment as JS does. -/
def splitNlRuns (l : List Char) : List (List Char) :=
  match splitSingleNl l with
  | [] => []
  | x :: xs => x :: midFilter xs

/-- Case-insensitive `startsWith` (ASCII case folding, as in a `/i`
regex over this program's patterns). -/
def ciStartsWith : List Char → List Char → Bool
  | _, [] => true
  | [], _ :: _ => false
  | c :: cs, p :: ps => (c.toLower = p.toLower) && ciStartsWith cs ps

/-- Does the list start with three copies of `c` (the `{3,}` test needs
only the first three)? -/
def prefixRun3 (c : Char) : List Char → Bool
  | c1 :: c2 :: c3 :: _ => c1 = c && c2 = c && c3 = c
  | _ => false

/-- The header/separator filter `^(REFACTORING|SUGGESTIONS?|={3,}|-{3,})/i`
of `parseRefactoringSuggestionsFromAgent` as a match test: the optional
`S?` adds nothing to a prefix test, and a `{3,}` run is witnessed by its
first three characters. -/
def isHeaderLine (l : List Char) : Bool :=
  ciStartsWith l "REFACTORING".data || ciStartsWith l "SUGGESTION".data ||
  prefixRun3 '=' l || prefixRun3 '-' l

end ByteBuddy

namespace Part000

open ByteBuddy

/-- A record produced by `parseRefactoringSuggestionsFromAgent` in
`part_000` (lines 250–262). -/
structure Suggestion where
  id : Nat
  title : List Char
  description : List Char
  priority : List Char
  category : List Char
  color : List Char
deriving DecidableEq, Repr

/-- The leading-glyph class `[\d\.\-\*\+•\s]` of the bullet-stripping
replace in `part_000` (line 252): digits, period, hyphen, asterisk, plus,
the bullet U+2022, and whitespace. -/
def bulletClass (c : Char) : Bool :=
  c.isDigit || c = '.' || c = '-' || c = '*' || c = '+' || c = '•' || jsWhitespace c

/-- Embeds `line.replace(/^[\d\.\-\*\+•\s]+/, '').trim()`: removing the leading
maximal run of the class then trimming. -/
def cleanLine (l : List Char) : List Char := jsTrim (l.dropWhile bulletClass)

/-- The surviving lines of the suggestion text: split on newline runs,
trim, drop empty lines (`line.length > 0`), drop header/separator
lines. -/
def survivingLines (t : List Char) : List (List Char) :=
  (((splitNlRuns t).map jsTrim).filter (fun l => !l.isEmpty)).filter
    (fun l => !isHeaderLine l)

/-- The indexed `lines.map((line, index) => ...)` body: record `index` as
id, themed title `Refactoring Suggestion ${index+1}`, the cleaned line as
description, priority `'High'` for index < 2 else `'Medium'`, constant
category `'Refactoring'` and color `'electric-blue'`. -/
def mkSuggestions : Nat → List (List Char) → List Suggestion
  | _, [] => []
  | i, l :: rest =>
    ⟨i, "Refactoring Suggestion ".data ++ (Nat.repr (i + 1)).data, cleanLine l,
      if i < 2 then "High".data else "Medium".data, "Refactoring".data,
      "electric-blue".data⟩ :: mkSuggestions (i + 1) rest

/-- Embeds `parseRefactoringSuggestionsFromAgent` from `part_000` (lines
238–263): `none` models a null/undefined argument, `[]` the empty string
(both falsy); a text containing the literal marker yields `[]`; otherwise
the surviving lines are mapped to indexed records. -/
def parseRefactoringSuggestionsFromAgent : Option (List Char) → List Suggestion
  | none => []
  | some t =>
    if t = [] then []
    else if containsSub t "No refactoring suggestions".data then []
    else mkSuggestions 0 (survivingLines t)

end Part000

/-- Claim-side record constructor for C6, following the claim's words:
for the pair (ordinal position, surviving line), the id is the 0-based
ordinal, the description is the line stripped of leading numbering/bullet
glyphs and whitespace, the priority is High for the first two records and
Medium for the rest, and the category is the constant `"Refactoring"`. -/
def specSuggestionRecord (p : Nat × List Char) : Part000.Suggestion :=
  ⟨p.1, "Refactoring Suggestion ".data ++ (Nat.repr (p.1 + 1)).data,
    Part000.cleanLine p.2,
    if p.1 < 2 then "High".data else "Medium".data,
    "Refactoring".data, "electric-blue".data⟩

namespace ByteBuddy

/-- Case-insensitive literal match at the current position (the `/i`
flag's ASCII case folding): consumes the pattern if it matches, returning
the rest of the input. -/
def matchLitCI : List Char → List Char → Option (List Char)
  | [], l => some l
  | _ :: _, [] => none
  | p :: ps, c :: cs => if p.toLower = c.toLower then matchLitCI ps cs else none

/-- Matches `[^)]*\)` at the current position: the greedy run of non-`)`
characters followed by `)`, i.e. everything up to and including the first
`)`; fails when no `)` follows (backtracking cannot help since the run
contains no `)`).  Returns (consumed characters, rest). -/
def takeThroughParen : List Char → Option (List Char × List Char)
  | [] => none
  | c :: cs =>
    if c = ')' then some ([')'], cs)
    else
      match takeThroughParen cs with
      | some (m, r) => some (c :: m, r)
      | none => none

/-- The capture group `([O\(][^)]*\))` at the current position; under the
`/i` flag (`ci = true`) the class `[O\(]` also matches a lowercase
`o`. -/
def bigOAt (ci : Bool) : List Char → Option (List Char)
  | [] => none
  | c :: cs =>
    if c = 'O' || c = '(' || (ci && c = 'o') then
      match takeThroughParen cs with
      | some (m, _) => some (c :: m)
      | none => none
    else none

/-- The label regexes `label\s*([O\(][^)]*\))/i` at the current position:
match the label case-insensitively, then the greedy `\s*` (exact maximal
munch, since no whitespace character can start the group), then the
capture group. -/
def labelBigOAt (label : List Char) (l : List Char) : Option (List Char) :=
  match matchLitCI label l with
  | some rest => bigOAt true (rest.dropWhile jsWhitespace)
  | none => none

/-- The regex engine's position scan for `String.prototype.match` without
`/g`: try the pattern at each position left to right and return the first
successful capture. -/
def scanFirst (p : List Char → Option (List Char)) : List Char → Option (List Char)
  | [] => p []
  | c :: cs =>
    match p (c :: cs) with
    | some t => some t
    | none => scanFirst p cs

end ByteBuddy

namespace AnalysisJs

open ByteBuddy

/-- The time token of `parseComplexityFromAgent` (`analysis.js` lines
615–619): the capture of `text.match(/Time Complexity:\s*([O\(][^)]*\))/i)`,
else of the case-sensitive fallback `text.match(/([O\(][^)]*\))/)`, else
the default `'O(n)'`. -/
def timeToken (s : List Char) : List Char :=
  match scanFirst (labelBigOAt "Time Complexity:".data) s with
  | some t => t
  | none =>
    match scanFirst (bigOAt false) s with
    | some t => t
    | none => "O(n)".data

/-- The space token (`analysis.js` lines 618–620): the capture of
`text.match(/Space Complexity:\s*([O\(][^)]*\))/i)`, defaulting to
`'O(1)'` with no generic fallback search. -/
def spaceToken (s : List Char) : List Char :=
  (scanFirst (labelBigOAt "Space Complexity:".data) s).getD "O(1)".data

/-- The object returned by `parseComplexityFromAgent` (`analysis.js`
lines 627–640). -/
structure ComplexityData where
  time_complexity : List Char
  time_color : List Char
  space_complexity : List Char
  space_color : List Char
  performance_score : ByteBuddy.ScoreVal
  score : ByteBuddy.ComplexityScoreVal
  full_analysis : List Char
deriving DecidableEq, Repr

/-- Embeds `parseComplexityFromAgent` from `analysis.js` (lines 607–641): a
null/undefined or non-string argument is `none`; a present string that is
empty is falsy and also yields null; otherwise the extracted tokens are
colored and scored and `full_analysis` carries the original string. -/
def parseComplexityFromAgent : Option (List Char) → Option ComplexityData
  | none => none
  | some s =>
    if s = [] then none
    else
      some ⟨timeToken s, getComplexityColor (.str (timeToken s)), spaceToken s,
        getComplexityColor (.str (spaceToken s)),
        calculatePerformanceScore (some (timeToken s)),
        calculateComplexityScore (some (timeToken s, spaceToken s)), s⟩

end AnalysisJs

namespace ByteBuddy

/-- The `results` object of an analysis response, with the four field
names checked by `validateResponse`; `none` models an absent field. -/
structure ResultsObj where
  complexity_analysis : Option (List Char)
  documentation : Option (List Char)
  refactoring_suggestions : Option (List Char)
  improvement_suggestions : Option (List Char)
deriving DecidableEq, Repr

/-- The `required` array of `validateResponse` (identical in both files,
`analysis.js` lines 486–491 / `part_000` lines 97–102). -/
def requiredProps : List (List Char) :=
  ["complexity_analysis".data, "documentation".data,
   "refactoring_suggestions".data, "improvement_suggestions".data]

/-- Embeds `prop in result.results` for the four checked names. -/
def hasProp (r : ResultsObj) (p : List Char) : Bool :=
  if p = "complexity_analysis".data then r.complexity_analysis.isSome
  else if p = "documentation".data then r.documentation.isSome
  else if p = "refactoring_suggestions".data then r.refactoring_suggestions.isSome
  else if p = "improvement_suggestions".data then r.improvement_suggestions.isSome
  else false

/-- Embeds `required.filter(prop => !(prop in result.results))`: the missing
field names, which `validateResponse` only logs. -/
def missingProps (r : ResultsObj) : List (List Char) :=
  requiredProps.filter (fun p => !hasProp r p)

/-- Embeds `validateResponse` (identical in both files, `analysis.js` lines
478–500 / `part_000` lines 89–111): false iff `!result || !result.results`;
the outer `Option` models a falsy `result`, the inner a falsy
`result.results`; missing fields never make it false. -/
def validateResponse : Option (Option ResultsObj) → Bool
  | none => false
  | some none => false
  | some (some _) => true

/-- JavaScript `\w`: ASCII letters, digits and underscore. -/
def isWordChar (c : Char) : Bool := c.isAlphanum || c = '_'

/-- Sequencing of position matchers (each returns the number of
characters consumed at the current position): consume with `a`, then `b`
on the rest. -/
def pseq (a b : List Char → Option Nat) : List Char → Option Nat := fun l =>
  match a l with
  | some n =>
    match b (l.drop n) with
    | some m => some (n + m)
    | none => none
  | none => none

/-- Ordered alternative: the regex engine prefers the left branch (used
for the greedy optional group `(static\s+)?`). -/
def palt (a b : List Char → Option Nat) : List Char → Option Nat := fun l =>
  match a l with
  | some n => some n
  | none => b l

/-- A case-sensitive literal. -/
def plit (p : List Char) : List Char → Option Nat := fun l =>
  if p.isPrefixOf l then some p.length else none

/-- Greedy `X+` over a character class; exact maximal munch, which agrees
with the backtracking engine at every use in `countFunctions`'s patterns
because the following pattern element can never match a class
character. -/
def pmany1 (f : Char → Bool) : List Char → Option Nat := fun l =>
  let n := (l.takeWhile f).length
  if n = 0 then none else some n

/-- Greedy `X*` over a character class (same exactness argument). -/
def pmany0 (f : Char → Bool) : List Char → Option Nat := fun l =>
  some (l.takeWhile f).length

/-- A single literal character. -/
def pchr (c : Char) : List Char → Option Nat := fun l =>
  match l with
  | x :: _ => if x = c then some 1 else none
  | [] => none

/-- Pattern `/function\s+\w+/g`. -/
def reFunction : List Char → Option Nat :=
  pseq (plit "function".data) (pseq (pmany1 jsWhitespace) (pmany1 isWordChar))

/-- Pattern `/const\s+\w+\s*=\s*\(/g`. -/
def reConstArrow : List Char → Option Nat :=
  pseq (plit "const".data) (pseq (pmany1 jsWhitespace) (pseq (pmany1 isWordChar)
    (pseq (pmany0 jsWhitespace) (pseq (pchr '=') (pseq (pmany0 jsWhitespace)
      (pchr '('))))))

/-- Pattern `/def\s+\w+/g`. -/
def reDef : List Char → Option Nat :=
  pseq (plit "def".data) (pseq (pmany1 jsWhitespace) (pmany1 isWordChar))

/-- The tail `\w+\s+\w+\s*\(` shared by the two Java-method patterns. -/
def reJavaTail : List Char → Option Nat :=
  pseq (pmany1 isWordChar) (pseq (pmany1 jsWhitespace) (pseq (pmany1 isWordChar)
    (pseq (pmany0 jsWhitespace) (pchr '('))))

/-- Pattern `/kw\s+(static\s+)?\w+\s+\w+\s*\(/g` for `kw` = public/private: the
greedy optional group tries the `static\s+` branch first and falls back
to the groupless branch when the remainder cannot complete. -/
def reJavaMethod (kw : List Char) : List Char → Option Nat :=
  palt
    (pseq (plit kw) (pseq (pmany1 jsWhitespace)
      (pseq (plit "static".data) (pseq (pmany1 jsWhitespace) reJavaTail))))
    (pseq (plit kw) (pseq (pmany1 jsWhitespace) reJavaTail))

/-- Pattern `/func\s+\w+\s*\(/g`. -/
def reFuncGo : List Char → Option Nat :=
  pseq (plit "func".data) (pseq (pmany1 jsWhitespace) (pseq (pmany1 isWordChar)
    (pseq (pmany0 jsWhitespace) (pchr '('))))

/-- Pattern `/fn\s+\w+\s*\(/g`. -/
def reFnRust : List Char → Option Nat :=
  pseq (plit "fn".data) (pseq (pmany1 jsWhitespace) (pseq (pmany1 isWordChar)
    (pseq (pmany0 jsWhitespace) (pchr '('))))

/-- Pattern `/\w+\s+\w+\s*\([^)]*\)\s*{/g`. -/
def reCStyle : List Char → Option Nat :=
  pseq (pmany1 isWordChar) (pseq (pmany1 jsWhitespace) (pseq (pmany1 isWordChar)
    (pseq (pmany0 jsWhitespace) (pseq (pchr '(') (pseq (pmany0 (fun c => c != ')'))
      (pseq (pchr ')') (pseq (pmany0 jsWhitespace) (pchr '\x7b'))))))))

/-- Count the non-overlapping matches of a position matcher as a JS
global regex does: scan left to right, resume immediately after each
match (or one character further for an empty match).  The fuel starts at
the input length and never runs out, since every step consumes at least
one character. -/
def countMatchesAux (p : List Char → Option Nat) : Nat → List Char → Nat
  | 0, _ => 0
  | _ + 1, [] => 0
  | fuel + 1, c :: rest =>
    match p (c :: rest) with
    | some 0 => 1 + countMatchesAux p fuel rest
    | some (n + 1) => 1 + countMatchesAux p fuel (rest.drop n)
    | none => countMatchesAux p fuel rest

/-- Embeds `code.match(pattern)?.length ?? 0` for a global pattern. -/
def countMatches (p : List Char → Option Nat) (l : List Char) : Nat :=
  countMatchesAux p l.length l

/-- The `functionPatterns` array of `countFunctions` (identical in both
files, `analysis.js` lines 724–733 / `part_000` lines 320–329). -/
def functionPatterns : List (List Char → Option Nat) :=
  [reFunction, reConstArrow, reDef, reJavaMethod "public".data,
   reJavaMethod "private".data, reFuncGo, reFnRust, reCStyle]

/-- Embeds `countFunctions` (identical in both files, `analysis.js` lines
723–742 / `part_000` lines 319–338): accumulate the per-pattern match
counts, then `Math.max(1, count)`. -/
def countFunctions (code : List Char) : Nat :=
  Nat.max 1 (functionPatterns.foldl (fun count p => count + countMatches p code) 0)

end ByteBuddy

/-- C1 counterexample: the claim says `getComplexityColor "O(n log n)"`
returns the fair-tier color of the `'n log n'` branch (`'#FFA726'` in
`analysis.js`).  In fact the `'log n'` check runs first and
`"o(n log n)"` contains `"log n"`, so the good-tier `'#40E0D0'` is
returned instead. -/
theorem getComplexityColor_nlogn_counterexample :
    AnalysisJs.getComplexityColor (.str "O(n log n)".data) = "#40E0D0".data ∧
    "#40E0D0".data ≠ "#FFA726".data := by
  constructor
  · decide
  · decide

/-- C1 amended: for the token `"O(n log n)"`, `getComplexityColor` returns
the good-tier `'log n'`-branch color (the `'log n'` check precedes the
`'n log n'` check and the lowercased token contains `"log n"`), which is
still not the bare-`'n'` branch color; for `"O(2^n)"` it returns the
worst-tier exponential-branch color, not the bare-`'n'` branch color.
Both copies of the function behave this way. -/
theorem getComplexityColor_ordering :
    AnalysisJs.getComplexityColor (.str "O(n log n)".data) = "#40E0D0".data ∧
    "#40E0D0".data ≠ "#00BFFF".data ∧
    AnalysisJs.getComplexityColor (.str "O(2^n)".data) = "#FF1744".data ∧
    "#FF1744".data ≠ "#00BFFF".data ∧
    Part000.getComplexityColor (.str "O(n log n)".data) = "#33b5e5".data ∧
    "#33b5e5".data ≠ "#FFA500".data ∧
    Part000.getComplexityColor (.str "O(2^n)".data) = "#FF1744".data ∧
    "#FF1744".data ≠ "#FFA500".data := by
  refine ⟨by decide, by decide, by decide, by decide, by decide, by decide, by decide, by decide⟩

/-- C10: `getComplexityColor` is total over arbitrary coerced inputs and
always returns one of its seven fixed hex color strings; at `null` the
coerced string `"null"` contains `'n'`, so the bare-`'n'` mid-tier color
`'#00BFFF'` is returned rather than the no-match default `'#FF4757'`. -/
theorem getComplexityColor_total :
    (∀ v : ByteBuddy.JSVal,
      AnalysisJs.getComplexityColor v = "#2ED573".data ∨
      AnalysisJs.getComplexityColor v = "#40E0D0".data ∨
      AnalysisJs.getComplexityColor v = "#FFA726".data ∨
      AnalysisJs.getComplexityColor v = "#FF4757".data ∨
      AnalysisJs.getComplexityColor v = "#FF1744".data ∨
      AnalysisJs.getComplexityColor v = "#00BFFF".data) ∧
    AnalysisJs.getComplexityColor .null = "#00BFFF".data ∧
    "#00BFFF".data ≠ "#FF4757".data := by
  refine ⟨?_, by decide, by decide⟩
  intro v
  unfold AnalysisJs.getComplexityColor
  dsimp only
  split_ifs <;> simp

theorem part000_severity_time (t : List Char)
    (ht : ¬ t ∈ ByteBuddy.objectProtoKeys) :
    ByteBuddy.jsOr (Part000.complexityScores t) 5 = .num (severityTimeSpec t) := by
  unfold Part000.complexityScores severityTimeSpec
  split_ifs <;> simp_all [ByteBuddy.jsOr]

theorem part000_severity_space (s : List Char)
    (hs : ¬ s ∈ ByteBuddy.objectProtoKeys) :
    ByteBuddy.jsOr (Part000.complexityScores s) 8 = .num (severitySpaceSpec s) := by
  unfold Part000.complexityScores severitySpaceSpec
  split_ifs <;> simp_all [ByteBuddy.jsOr]

theorem part000_complexity_proto (t : List Char) (ht : t ∈ ByteBuddy.objectProtoKeys) :
    Part000.complexityScores t = .protoMember := by
  fin_cases ht <;> decide

theorem part000_perf_proto (t : List Char) (ht : t ∈ ByteBuddy.objectProtoKeys) :
    Part000.performanceScores t = .protoMember := by
  fin_cases ht <;> decide

theorem part000_complexity_num_bounds (k : List Char) (d n : Nat) (h1 : 1 ≤ d)
    (h2 : d ≤ 10) (h : ByteBuddy.jsOr (Part000.complexityScores k) d = .num n) :
    1 ≤ n ∧ n ≤ 10 := by
  unfold Part000.complexityScores at h
  split_ifs at h <;> simp_all [ByteBuddy.jsOr] <;> omega

theorem part000_perf_num_le (k : List Char) (d n : Nat) (hd : d ≤ 100)
    (h : ByteBuddy.jsOr (Part000.performanceScores k) d = .num n) : n ≤ 100 := by
  unfold Part000.performanceScores at h
  split_ifs at h <;> simp_all [ByteBuddy.jsOr] <;> omega

theorem roundMean_num (x y : ByteBuddy.ScoreVal) (n : Nat)
    (h : ByteBuddy.roundMean x y = .num n) :
    ∃ a b, x = .num a ∧ y = .num b ∧ n = ByteBuddy.mathRoundHalf (a + b) := by
  cases x with
  | num a =>
    cases y with
    | num b =>
      simp only [ByteBuddy.roundMean, ByteBuddy.ComplexityScoreVal.num.injEq] at h
      exact ⟨a, b, rfl, rfl, h.symm⟩
    | protoMember => simp [ByteBuddy.roundMean] at h
  | protoMember => cases y <;> simp [ByteBuddy.roundMean] at h

theorem roundMean_proto_left (y : ByteBuddy.ScoreVal) :
    ByteBuddy.roundMean .protoMember y = .nan := by
  cases y <;> rfl

theorem roundMean_proto_right (x : ByteBuddy.ScoreVal) :
    ByteBuddy.roundMean x .protoMember = .nan := by
  cases x <;> rfl

/-- C3 counterexample: two failures of the claimed table mapping.  With
both tokens the empty string, the code first replaces them by `'O(n)'`
and `'O(1)'` (the `||` defaults) and scores `round((6 + 10) / 2) = 8` in
both copies, while the claim's severity table (5 and 8 for unrecognized
tokens) gives `round((5 + 8) / 2) = 7`.  And with both tokens the string
`"toString"`, the lookups find the inherited `Object.prototype.toString`,
the `||` defaults never fire, and the result is NaN — not the integer 7
in `[1,10]` the claim's table predicts. -/
theorem overallScore_empty_counterexample :
    Part000.calculateComplexityScore (some ([], [])) = .num 8 ∧
    AnalysisJs.calculateComplexityScore (some ([], [])) = .num 8 ∧
    overallScoreSpec [] [] = 7 ∧
    ByteBuddy.ComplexityScoreVal.num 8 ≠ ByteBuddy.ComplexityScoreVal.num 7 ∧
    Part000.calculateComplexityScore (some ("toString".data, "toString".data)) = .nan ∧
    overallScoreSpec "toString".data "toString".data = 7 ∧
    ByteBuddy.ComplexityScoreVal.nan ≠ ByteBuddy.ComplexityScoreVal.num 7 :=
  ⟨by decide, by decide, by decide, by decide, by decide, by decide, by decide⟩

/-- C3 amended: for non-empty tokens that are not `Object.prototype`
member names, `calculateComplexityScore` maps each token through the
severity table (`O(1)→10 … O(2^n)→1`, defaults 5/8) and returns the
round-half-up arithmetic mean; every numeric result is an integer in
`[1,10]` and the claim's three examples hold.  An empty time token is
however first defaulted to `'O(n)'` (severity 6) and an empty space
token to `'O(1)'` (severity 10) before the lookup, and when either token
is one of the twelve `Object.prototype` member names the truthy
inherited member leaks through the `||` default and the result is
NaN. -/
theorem overallScore_spec :
    (∀ t s, t ≠ [] → s ≠ [] → ¬ t ∈ ByteBuddy.objectProtoKeys →
      ¬ s ∈ ByteBuddy.objectProtoKeys →
      Part000.calculateComplexityScore (some (t, s)) = .num (overallScoreSpec t s)) ∧
    Part000.calculateComplexityScore (some ([], [])) = .num 8 ∧
    Part000.calculateComplexityScore none = .num 5 ∧
    (∀ a n, Part000.calculateComplexityScore a = .num n → 1 ≤ n ∧ n ≤ 10) ∧
    (∀ t s, t ∈ ByteBuddy.objectProtoKeys →
      Part000.calculateComplexityScore (some (t, s)) = .nan) ∧
    (∀ t s, s ∈ ByteBuddy.objectProtoKeys →
      Part000.calculateComplexityScore (some (t, s)) = .nan) ∧
    Part000.calculateComplexityScore (some ("O(1)".data, "O(1)".data)) = .num 10 ∧
    Part000.calculateComplexityScore (some ("O(n)".data, "O(1)".data)) = .num 8 ∧
    Part000.calculateComplexityScore (some ("O(n^2)".data, "O(n^2)".data)) = .num 2 := by
  refine ⟨?_, by decide, by decide, ?_, ?_, ?_, by decide, by decide, by decide⟩
  · intro t s h1 h2 h3 h4
    simp only [Part000.calculateComplexityScore]
    rw [if_neg h1, if_neg h2, part000_severity_time t h3, part000_severity_space s h4]
    simp only [ByteBuddy.roundMean, ByteBuddy.ComplexityScoreVal.num.injEq]
    unfold overallScoreSpec ByteBuddy.mathRoundHalf
    dsimp only
    split_ifs <;> omega
  · intro a n h
    rcases a with _ | ⟨t, s⟩
    · simp only [Part000.calculateComplexityScore,
        ByteBuddy.ComplexityScoreVal.num.injEq] at h
      omega
    · simp only [Part000.calculateComplexityScore] at h
      obtain ⟨x, y, hA, hB, hn⟩ := roundMean_num _ _ _ h
      have hbA := part000_complexity_num_bounds _ 5 x (by omega) (by omega) hA
      have hbB := part000_complexity_num_bounds _ 8 y (by omega) (by omega) hB
      subst hn
      unfold ByteBuddy.mathRoundHalf
      omega
  · intro t s ht
    have h0 : t ≠ [] := by
      rintro rfl
      revert ht
      decide
    simp only [Part000.calculateComplexityScore]
    rw [if_neg h0, part000_complexity_proto t ht]
    simp only [ByteBuddy.jsOr]
    exact roundMean_proto_left _
  · intro t s hs
    have h0 : s ≠ [] := by
      rintro rfl
      revert hs
      decide
    simp only [Part000.calculateComplexityScore]
    rw [if_neg h0, part000_complexity_proto s hs]
    simp only [ByteBuddy.jsOr]
    exact roundMean_proto_right _

theorem overallScore_spec_witness :
    Part000.calculateComplexityScore (some ("O(1)".data, "O(1)".data)) =
      .num (overallScoreSpec "O(1)".data "O(1)".data) :=
  overallScore_spec.1 "O(1)".data "O(1)".data (by decide) (by decide) (by decide)
    (by decide)

/-- C5 counterexample: two failures of the claimed exact-table contract.
The empty string is not a table token, so the claim requires 50; both
copies instead default the falsy empty token to `'O(n)'` via `||` and
return 70.  And on `"toString"` the lookup finds the truthy inherited
`Object.prototype.toString`, `|| 50` never fires, and both copies return
that function rather than any number. -/
theorem performanceScore_empty_counterexample :
    Part000.calculatePerformanceScore (some []) = .num 70 ∧
    AnalysisJs.calculatePerformanceScore (some []) = .num 70 ∧
    ByteBuddy.ScoreVal.num 70 ≠ ByteBuddy.ScoreVal.num 50 ∧
    Part000.calculatePerformanceScore (some "toString".data) = .protoMember ∧
    AnalysisJs.calculatePerformanceScore (some "toString".data) = .protoMember ∧
    ByteBuddy.ScoreVal.protoMember ≠ ByteBuddy.ScoreVal.num 50 :=
  ⟨by decide, by decide, by decide, by decide, by decide, by decide⟩

/-- C5 amended (stated for the `part_000` copy, whose table carries a
genuine `'O(n²)'` key; the `analysis.js` copy differs only in the byte
encoding of that key, see the C7 theorems): exact-match table lookup
`O(1)→95, O(log n)→85, O(n)→70, O(n log n)→55, O(n²)/O(n^2)→25,
O(2^n)→5`, with 50 for every other non-empty string that is not an
`Object.prototype` member name; the empty string is first defaulted to
`'O(n)'` and yields 70; for the twelve `Object.prototype` member names
the truthy inherited member is returned instead of a number; a missing
analysis object yields 50; every numeric result is at most 100. -/
theorem performanceScore_table :
    Part000.calculatePerformanceScore none = .num 50 ∧
    Part000.calculatePerformanceScore (some "O(1)".data) = .num 95 ∧
    Part000.calculatePerformanceScore (some "O(log n)".data) = .num 85 ∧
    Part000.calculatePerformanceScore (some "O(n)".data) = .num 70 ∧
    Part000.calculatePerformanceScore (some "O(n log n)".data) = .num 55 ∧
    Part000.calculatePerformanceScore (some "O(n²)".data) = .num 25 ∧
    Part000.calculatePerformanceScore (some "O(n^2)".data) = .num 25 ∧
    Part000.calculatePerformanceScore (some "O(2^n)".data) = .num 5 ∧
    Part000.calculatePerformanceScore (some []) = .num 70 ∧
    (∀ t, t ≠ [] → ¬ t ∈ ByteBuddy.objectProtoKeys → t ≠ "O(1)".data →
      t ≠ "O(log n)".data → t ≠ "O(n)".data → t ≠ "O(n log n)".data →
      t ≠ "O(n²)".data → t ≠ "O(n^2)".data → t ≠ "O(2^n)".data →
      Part000.calculatePerformanceScore (some t) = .num 50) ∧
    (∀ t, t ∈ ByteBuddy.objectProtoKeys →
      Part000.calculatePerformanceScore (some t) = .protoMember) ∧
    (∀ a n, Part000.calculatePerformanceScore a = .num n → n ≤ 100) := by
  refine ⟨by decide, by decide, by decide, by decide, by decide, by decide, by decide,
    by decide, by decide, ?_, ?_, ?_⟩
  · intro t h0 hp h1 h2 h3 h4 h5 h6 h7
    simp only [Part000.calculatePerformanceScore]
    rw [if_neg h0]
    unfold Part000.performanceScores
    split_ifs <;> simp_all [ByteBuddy.jsOr]
  · intro t ht
    have h0 : t ≠ [] := by
      rintro rfl
      revert ht
      decide
    simp only [Part000.calculatePerformanceScore]
    rw [if_neg h0, part000_perf_proto t ht]
    rfl
  · intro a n h
    rcases a with _ | t
    · simp only [Part000.calculatePerformanceScore,
        ByteBuddy.ScoreVal.num.injEq] at h
      omega
    · simp only [Part000.calculatePerformanceScore] at h
      exact part000_perf_num_le _ 50 n (by omega) h

theorem performanceScore_table_witness :
    Part000.calculatePerformanceScore (some "O(n^3)".data) = .num 50 :=
  performanceScore_table.2.2.2.2.2.2.2.2.2.1 "O(n^3)".data (by decide) (by decide)
    (by decide) (by decide) (by decide) (by decide) (by decide) (by decide) (by decide)

theorem perfScores_agree (k : List Char) (h1 : k ≠ "O(n²)".data) (h2 : k ≠ "O(n¬≤)".data) :
    AnalysisJs.performanceScores k = Part000.performanceScores k := by
  unfold AnalysisJs.performanceScores Part000.performanceScores
  split_ifs <;> simp_all

theorem complexityScores_agree (k : List Char) (h1 : k ≠ "O(n²)".data)
    (h2 : k ≠ "O(n¬≤)".data) :
    AnalysisJs.complexityScores k = Part000.complexityScores k := by
  unfold AnalysisJs.complexityScores Part000.complexityScores
  split_ifs <;> simp_all

/-- C7 counterexample: the two copies are not extensionally equal.  The
`analysis.js` copy's superscript-squared table key is mojibake (the
characters U+00AC U+2264), so on the genuine token `"O(n²)"` it falls
through to the default 50 while the `part_000` copy returns 25. -/
theorem scoring_duplication_counterexample :
    AnalysisJs.calculatePerformanceScore (some "O(n²)".data) = .num 50 ∧
    Part000.calculatePerformanceScore (some "O(n²)".data) = .num 25 ∧
    ByteBuddy.ScoreVal.num 50 ≠ ByteBuddy.ScoreVal.num 25 :=
  ⟨by decide, by decide, by decide⟩

/-- C7 amended: the two copies of `calculatePerformanceScore` agree on
every input except the superscript-squared spellings (`"O(n²)"` and the
mojibake `"O(n¬≤)"`), and the two copies of `calculateComplexityScore`
agree whenever neither token is one of those two spellings — including
on `Object.prototype` member names, where both copies return the same
inherited member (respectively the same NaN), since both object literals
inherit from the one `Object.prototype`. -/
theorem scoring_duplication_equiv :
    (∀ s, s ≠ "O(n²)".data → s ≠ "O(n¬≤)".data →
      AnalysisJs.calculatePerformanceScore (some s) =
        Part000.calculatePerformanceScore (some s)) ∧
    AnalysisJs.calculatePerformanceScore none = Part000.calculatePerformanceScore none ∧
    (∀ t s, t ≠ "O(n²)".data → t ≠ "O(n¬≤)".data → s ≠ "O(n²)".data → s ≠ "O(n¬≤)".data →
      AnalysisJs.calculateComplexityScore (some (t, s)) =
        Part000.calculateComplexityScore (some (t, s))) := by
  refine ⟨?_, by decide, ?_⟩
  · intro s h1 h2
    by_cases hE : s = []
    · subst hE; decide
    · simp only [AnalysisJs.calculatePerformanceScore, Part000.calculatePerformanceScore]
      rw [if_neg hE, perfScores_agree s h1 h2]
  · intro t s h1 h2 h3 h4
    have ha : AnalysisJs.complexityScores (if t = [] then "O(n)".data else t) =
        Part000.complexityScores (if t = [] then "O(n)".data else t) := by
      split_ifs with h
      · exact complexityScores_agree _ (by decide) (by decide)
      · exact complexityScores_agree _ h1 h2
    have hb : AnalysisJs.complexityScores (if s = [] then "O(1)".data else s) =
        Part000.complexityScores (if s = [] then "O(1)".data else s) := by
      split_ifs with h
      · exact complexityScores_agree _ (by decide) (by decide)
      · exact complexityScores_agree _ h3 h4
    simp only [AnalysisJs.calculateComplexityScore, Part000.calculateComplexityScore]
    rw [ha, hb]

theorem scoring_duplication_equiv_witness :
    AnalysisJs.calculatePerformanceScore (some "O(1)".data) =
      Part000.calculatePerformanceScore (some "O(1)".data) :=
  scoring_duplication_equiv.1 "O(1)".data (by decide) (by decide)

theorem mkSuggestions_enumFrom (n : Nat) (ls : List (List Char)) :
    Part000.mkSuggestions n ls = (List.enumFrom n ls).map specSuggestionRecord := by
  induction ls generalizing n with
  | nil => rfl
  | cons l rest ih =>
    simp [Part000.mkSuggestions, List.enumFrom, specSuggestionRecord, ih]

theorem mkSuggestions_eq_nil (n : Nat) (ls : List (List Char)) :
    Part000.mkSuggestions n ls = [] ↔ ls = [] := by
  cases ls <;> simp [Part000.mkSuggestions]

/-- C2 counterexample: the claim's "empty iff absent or marker" fails in
the only-if direction: the non-empty text `"===="`, which does not
contain `"No refactoring suggestions"`, consists of a single separator
line, which the header filter drops, so the suggestion list is empty. -/
theorem extractSuggestions_empty_counterexample :
    Part000.parseRefactoringSuggestionsFromAgent (some "====".data) = [] ∧
    "====".data ≠ ([] : List Char) ∧
    ByteBuddy.containsSub "====".data "No refactoring suggestions".data = false :=
  ⟨by decide, by decide, by decide⟩

/-- C2 amended: the suggestion list is empty iff the input text is absent
(null/undefined/empty), contains the literal marker
`"No refactoring suggestions"`, or every segment is dropped by the
line-filtering stage (i.e. after splitting on newline runs and trimming,
every segment is empty or a header/separator line). -/
theorem extractSuggestions_empty_iff :
    Part000.parseRefactoringSuggestionsFromAgent none = [] ∧
    Part000.parseRefactoringSuggestionsFromAgent
        (some "No refactoring suggestions".data) = [] ∧
    (∀ t, Part000.parseRefactoringSuggestionsFromAgent (some t) = [] ↔
      (t = [] ∨ ByteBuddy.containsSub t "No refactoring suggestions".data = true ∨
        Part000.survivingLines t = [])) := by
  refine ⟨rfl, by decide, ?_⟩
  intro t
  simp only [Part000.parseRefactoringSuggestionsFromAgent]
  by_cases h1 : t = []
  · simp [h1]
  · by_cases h2 : ByteBuddy.containsSub t "No refactoring suggestions".data = true
    · simp [h1, h2]
    · simp [h1, h2, mkSuggestions_eq_nil]

/-- C6: for every non-absent, non-marker input, the parser maps the
surviving lines, in original order, to records carrying the 0-based
ordinal as id, the bullet-stripped line as description, priority High for
the first two and Medium for the rest, and constant category
`"Refactoring"`; in particular the claim's three-line example yields
exactly three records with the stated descriptions and priorities. -/
theorem extractSuggestions_structure :
    (∀ t, t ≠ [] →
      ByteBuddy.containsSub t "No refactoring suggestions".data = false →
      Part000.parseRefactoringSuggestionsFromAgent (some t) =
        (Part000.survivingLines t).enum.map specSuggestionRecord) ∧
    Part000.parseRefactoringSuggestionsFromAgent
        (some "1. Extract method\n2. Rename variable\n3. Remove dead code".data) =
      [⟨0, "Refactoring Suggestion 1".data, "Extract method".data, "High".data,
         "Refactoring".data, "electric-blue".data⟩,
       ⟨1, "Refactoring Suggestion 2".data, "Rename variable".data, "High".data,
         "Refactoring".data, "electric-blue".data⟩,
       ⟨2, "Refactoring Suggestion 3".data, "Remove dead code".data, "Medium".data,
         "Refactoring".data, "electric-blue".data⟩] := by
  constructor
  · intro t h1 h2
    simp only [Part000.parseRefactoringSuggestionsFromAgent]
    rw [if_neg h1, if_neg (by simp [h2])]
    simpa [List.enum] using mkSuggestions_enumFrom 0 (Part000.survivingLines t)
  · decide

theorem extractSuggestions_structure_witness :
    Part000.parseRefactoringSuggestionsFromAgent
        (some "1. Extract method\n2. Rename variable\n3. Remove dead code".data) =
      (Part000.survivingLines
        "1. Extract method\n2. Rename variable\n3. Remove dead code".data).enum.map
        specSuggestionRecord :=
  extractSuggestions_structure.1
    "1. Extract method\n2. Rename variable\n3. Remove dead code".data
    (by decide) (by decide)

/-- C4 counterexample: the empty string is a string (neither null nor
undefined), yet `parseComplexityFromAgent` returns null on it, because
the guard `!complexityText` is true for the falsy empty string. -/
theorem parseComplexity_null_counterexample :
    AnalysisJs.parseComplexityFromAgent (some []) = none ∧
    (some ([] : List Char)) ≠ (none : Option (List Char)) :=
  ⟨by decide, by decide⟩

/-- C4 amended: `parseComplexityFromAgent` returns null exactly when the
input is null/undefined, not a string, or the empty string; otherwise the
time token is the capture of the case-insensitive
`Time Complexity:\s*([O\(][^)]*\))` search, falling back to the first
case-sensitive `([O\(][^)]*\))` match anywhere in the text and finally to
`"O(n)"`; the space token is the capture of the `Space Complexity:`
search, defaulting to `"O(1)"` with no generic fallback; and the
returned assessment carries the untouched original string.  The labelled,
fallback and default extraction paths behave as on the spec's
examples. -/
theorem parseComplexity_spec :
    AnalysisJs.parseComplexityFromAgent none = none ∧
    (∀ s, AnalysisJs.parseComplexityFromAgent (some s) = none ↔ s = []) ∧
    (∀ s d, AnalysisJs.parseComplexityFromAgent (some s) = some d →
      d.full_analysis = s ∧ d.time_complexity = AnalysisJs.timeToken s ∧
        d.space_complexity = AnalysisJs.spaceToken s) ∧
    AnalysisJs.timeToken "Time Complexity: O(n log n)\nSpace Complexity: O(n)".data =
      "O(n log n)".data ∧
    AnalysisJs.spaceToken "Time Complexity: O(n log n)\nSpace Complexity: O(n)".data =
      "O(n)".data ∧
    AnalysisJs.timeToken "no explicit labels but O(log n) appears".data =
      "O(log n)".data ∧
    AnalysisJs.spaceToken "no explicit labels but O(log n) appears".data =
      "O(1)".data ∧
    AnalysisJs.timeToken "hello".data = "O(n)".data ∧
    AnalysisJs.spaceToken "hello".data = "O(1)".data := by
  refine ⟨rfl, ?_, ?_, by decide, by decide, by decide, by decide, by decide, by decide⟩
  · intro s
    by_cases h : s = [] <;> simp [AnalysisJs.parseComplexityFromAgent, h]
  · intro s d hd
    by_cases h : s = []
    · subst h
      simp [AnalysisJs.parseComplexityFromAgent] at hd
    · simp only [AnalysisJs.parseComplexityFromAgent, if_neg h, Option.some.injEq] at hd
      subst hd
      exact ⟨rfl, rfl, rfl⟩

theorem parseComplexity_spec_witness :
    (⟨"O(n)".data, "#00BFFF".data, "O(1)".data, "#2ED573".data, .num 70, .num 8,
      "hello".data⟩ : AnalysisJs.ComplexityData).full_analysis = "hello".data ∧
    (⟨"O(n)".data, "#00BFFF".data, "O(1)".data, "#2ED573".data, .num 70, .num 8,
      "hello".data⟩ : AnalysisJs.ComplexityData).time_complexity =
      AnalysisJs.timeToken "hello".data ∧
    (⟨"O(n)".data, "#00BFFF".data, "O(1)".data, "#2ED573".data, .num 70, .num 8,
      "hello".data⟩ : AnalysisJs.ComplexityData).space_complexity =
      AnalysisJs.spaceToken "hello".data :=
  parseComplexity_spec.2.2.1 "hello".data
    ⟨"O(n)".data, "#00BFFF".data, "O(1)".data, "#2ED573".data, .num 70, .num 8, "hello".data⟩
    (by decide)

/-- C8: `validateResponse` returns false exactly when the response object
or its top-level `results` object is absent, and with `results` present
it returns true regardless of which of the four expected fields are
present — even with all four missing, where `missingProps` collects the
whole `required` list and the function still accepts. -/
theorem validateResponse_spec :
    (∀ r, ByteBuddy.validateResponse r = false ↔ (r = none ∨ r = some none)) ∧
    (∀ ro : ByteBuddy.ResultsObj, ByteBuddy.validateResponse (some (some ro)) = true) ∧
    ByteBuddy.validateResponse (some (some ⟨none, none, none, none⟩)) = true ∧
    ByteBuddy.missingProps ⟨none, none, none, none⟩ = ByteBuddy.requiredProps := by
  refine ⟨?_, ?_, by decide, by decide⟩
  · intro r
    rcases r with _ | (_ | ro) <;> simp [ByteBuddy.validateResponse]
  · intro ro
    rfl

/-- C9: `countFunctions` is the clamp `max 1` of the sum, over the eight
fixed regex patterns, of each pattern's non-overlapping match count; it
therefore always returns at least 1, and on the empty string it returns 1
although no declaration exists there (while genuinely summing matches on
non-empty inputs, e.g. two `def` declarations count as 2). -/
theorem countFunctions_spec :
    (∀ code, ByteBuddy.countFunctions code =
      Nat.max 1 (ByteBuddy.countMatches ByteBuddy.reFunction code +
        ByteBuddy.countMatches ByteBuddy.reConstArrow code +
        ByteBuddy.countMatches ByteBuddy.reDef code +
        ByteBuddy.countMatches (ByteBuddy.reJavaMethod "public".data) code +
        ByteBuddy.countMatches (ByteBuddy.reJavaMethod "private".data) code +
        ByteBuddy.countMatches ByteBuddy.reFuncGo code +
        ByteBuddy.countMatches ByteBuddy.reFnRust code +
        ByteBuddy.countMatches ByteBuddy.reCStyle code)) ∧
    (∀ code, 1 ≤ ByteBuddy.countFunctions code) ∧
    ByteBuddy.countFunctions [] = 1 ∧
    ByteBuddy.countFunctions "def f\ndef g".data = 2 := by
  refine ⟨?_, ?_, by decide, by decide⟩
  · intro code
    simp only [ByteBuddy.countFunctions, ByteBuddy.functionPatterns, List.foldl,
      Nat.zero_add]
  · intro code
    simp only [ByteBuddy.countFunctions]
    exact Nat.le_max_left 1 _
